import Mathlib

/-!
Verification of the P2PVPS Listing Manager reconciliation workflow.

Shallow embedding of the order-fulfillment and listing-lifecycle
reconciliation logic of the listing manager (files `lib/util.js` and
`listing-manager.js`).  Times are modelled as integer milliseconds since
the epoch (JS `Date.getTime()`), money as natural-number satoshis, and
JavaScript values that may be `undefined` as `Option`.
-/

namespace ListingManager

/-! ## Timer and threshold constants (`listing-manager.js`) -/

/-- `MAX_DELAY = 60000 * 10`: milliseconds a device may go without checking in. -/
def MAX_DELAY : Int := 60000 * 10

/-- `BUFFER = 60000 * 5`: grace period past expiration before a listing is removed. -/
def BUFFER : Int := 60000 * 5

/-! ## Duration presets (`util.js/updateExpiration` switch) -/

/-- The `switch (timeSelector)` table of `updateExpiration`: selector `0` is
"now" (force reset), `10` is the 8-minute test bucket, `20` is 1 hour,
`30` is 1 day, `40` is 1 week, `50` is 1 month (30 days); any other selector
falls through to `0`.  Result in milliseconds. -/
def targetTime (timeSelector : Int) : Int :=
  if timeSelector = 0 then 0
  else if timeSelector = 10 then 60000 * 8
  else if timeSelector = 20 then 60000 * 60
  else if timeSelector = 30 then 60000 * 60 * 24
  else if timeSelector = 40 then 60000 * 60 * 24 * 7
  else if timeSelector = 50 then 60000 * 60 * 24 * 30
  else 0

/-- The literal selector `30` passed by `fulfillNewOrders` at
`util.updateExpiration(config, devicePublicModel._id, 30)`. -/
def fulfillmentTimeSelector : Int := 30

/-! ## Fee arithmetic (`util.js/addPaymentObject`) -/

/-- `FEE_PERCENTAGE = 10`. -/
def FEE_PERCENTAGE : Nat := 10

/-- `fee = Math.floor(contractPrice * FEE_PERCENTAGE / 100)`; on naturals, `/`
is floor division. -/
def fee (contractPrice : Nat) : Nat := contractPrice * FEE_PERCENTAGE / 100

/-- `net = contractPrice - fee`. -/
def net (contractPrice : Nat) : Nat := contractPrice - fee contractPrice

/-! ## GUID validation and slug parsing -/

/-- One character of the regex class `[a-f\d]` under the `i` flag of
`/^[a-f\d]{24}$/i`: lowercase `a`-`f`, uppercase `A`-`F`, or a digit. -/
def isGuidChar (c : Char) : Bool :=
  (('a' ≤ c) && (c ≤ 'f')) || (('A' ≤ c) && (c ≤ 'F')) || c.isDigit

/-- `util.js/validateGuid`: true iff the string matches `/^[a-f\d]{24}$/i`
(24 characters, each a hex digit, case-insensitively).  Non-string inputs
are rejected by a `typeof` guard before the regex test; we model the
string case. -/
def validateGuid (guid : String) : Bool :=
  guid.toList.length = 24 && guid.toList.all isGuidChar

/-- The spec's words, for comparison: a 24-character *lowercase*-hex
pattern (`a`-`f` and digits only). -/
def isLowercaseHexPattern (s : String) : Bool :=
  s.toList.length = 24 && s.toList.all (fun c => (('a' ≤ c) && (c ≤ 'f')) || c.isDigit)

/-- JS `slug.split("-")` on a character list: splits at every `'-'`,
keeping empty pieces, and always returns at least one piece. -/
def splitDash : List Char → List (List Char)
  | [] => [[]]
  | c :: rest =>
    match splitDash rest with
    | [] => [[]]
    | h :: t => if c = '-' then [] :: h :: t else (c :: h) :: t

/-- `const tmp = slug.split("-"); const deviceId = tmp[tmp.length - 1]`:
the trailing `'-'`-delimited token of the slug. -/
def extractDeviceId (slug : String) : String :=
  String.mk ((splitDash slug.toList).getLastD [])

/-- Substring containment, the JS `s.indexOf(pat) !== -1`. -/
def containsSub (s pat : List Char) : Bool :=
  (List.range (s.length + 1)).any (fun i => pat.isPrefixOf (s.drop i))

/-- `fulfillNewOrders` step 2: `thisNotice.notification.slug.indexOf("renewal") > -1`
decides renewal vs. new rental. -/
def slugIsRenewal (slug : String) : Bool :=
  containsSub slug.toList ("renewal".toList)

/-! ## Data model -/

/-- Device public record (`devicePublicModel`).  `obContract` is `none` when
the JS field is `undefined`/`null`; the cleared state is `some ""`. -/
structure Device where
  _id : String
  privateData : String
  checkinTimeStamp : Int
  expiration : Int
  obContract : Option String
deriving Repr, DecidableEq

/-- The `device` object inside a server response: its `expiration` field may
be missing (`none`), which `updateExpiration` treats as falsy. -/
structure RespDevice where
  _id : String
  expiration : Option Int
  obContract : Option String
deriving Repr, DecidableEq

/-- Marketplace contract record (`obContract` model). -/
structure ObContract where
  _id : String
  listingSlug : String
  experation : Int
deriving Repr, DecidableEq

/-- Device private record: the fields the fulfillment cycle touches. -/
structure DevicePrivate where
  _id : String
  payments : List (Option Int × Nat × String)
deriving Repr, DecidableEq

/-- A marketplace notification (`thisNotice.notification`). -/
structure Notification where
  notificationId : String
  type : String
  orderId : String
  slug : String
deriving Repr, DecidableEq

/-- Payment object appended by `addPaymentObject`: `payTime` is
`config.expiration` (possibly `undefined`, hence `Option`), `payQty` the
net satoshis, `refundAddr` the buyer's refund address. -/
structure PaymentObj where
  payTime : Option Int
  payQty : Nat
  refundAddr : String
deriving Repr, DecidableEq

/-- The mutable session configuration (`config` in `listing-manager.js`),
restricted to the fields the modelled logic reads or writes.
`expiration` is `none` when the JS object has no such field. -/
structure Config where
  adminPass : String
  jwt : String
  isRenewal : Bool
  devicePrivateData : Option DevicePrivate
  obNotice : Option Notification
  expiration : Option Int
deriving Repr, DecidableEq

/-- The initial `config` object literal of `listing-manager.js`: it sets
`adminUser`, `adminPass`, `jwt`, `isRenewal` and endpoint data, and no
`expiration` field. -/
def initialConfig : Config :=
  { adminPass := ""
    jwt := ""
    isRenewal := false
    devicePrivateData := none
    obNotice := none
    expiration := none }

/-- `listing-manager.js/resetConfig`: rebuilds `config` from scratch,
keeping `adminPass` and `jwt`, setting `isRenewal := false`, and writing
no `expiration`, `devicePrivateData` or `obNotice` field. -/
def resetConfig (c : Config) : Config :=
  { adminPass := c.adminPass
    jwt := c.jwt
    isRenewal := false
    devicePrivateData := none
    obNotice := none
    expiration := none }

/-! ## `util.js/updateExpiration` -/

/-- The new expiration computed by `updateExpiration`: `now + targetTime`
for a new rental (`!config.isRenewal`), `oldExpiration + targetTime` for a
renewal. -/
def newExpirationMs (isRenewal : Bool) (now oldExpiration targetT : Int) : Int :=
  if !isRenewal then now + targetT else oldExpiration + targetT

/-- `updateExpiration config deviceId timeSelector`, with the two HTTP
round-trips made explicit: `stored` is the device returned by the GET, and
`putResp` maps the device sent in the PUT body to the `device` object of
the server's response.  Returns the response device on success, `none`
(JS `false`) when the response's `expiration` field is missing/falsy. -/
def updateExpiration (isRenewal : Bool) (now : Int) (stored : Device)
    (timeSelector : Int) (putResp : Device → RespDevice) : Option RespDevice :=
  let tt := targetTime timeSelector
  let newExp := newExpirationMs isRenewal now stored.expiration tt
  let sent : Device := { stored with expiration := newExp }
  let resp := putResp sent
  match resp.expiration with
  | some _ => some resp
  | none => none

/-- A server that echoes the PUT body back, the normal case. -/
def echoPut (d : Device) : RespDevice :=
  { _id := d._id, expiration := some d.expiration, obContract := d.obContract }

/-! ## `util.js/addRentedDevice` -/

/-- Outcome of the `POST /api/renteddevices` round-trip as seen by the
client: a JSON body with a `success` flag, or a transport-level rejection
carrying the `request-promise` error message string. -/
inductive PostRentedResp where
  | ok (success : Bool)
  | httpError (message : String)
deriving Repr, DecidableEq

/-- The exact `err.message` the catch block compares against:
`422 - "Device already in list"`. -/
def alreadyInListMsg : String := "422 - \"Device already in list\""

/-- `addRentedDevice`: `true` when the POST succeeds, and the `422 -
"Device already in list"` rejection is converted to `true` in the catch
block; every other failure (including a falsy `success` flag, whose thrown
string has no `message` property) is re-thrown. -/
def addRentedDevice (deviceId : String) (resp : PostRentedResp) : Except String Bool :=
  match resp with
  | .ok true => .ok true
  | .ok false => .error ("Could not add device " ++ deviceId ++ " to rentedDevices list model.")
  | .httpError msg => if msg = alreadyInListMsg then .ok true else .error msg

/-- Modelled from the spec: the rental API's rented-device list endpoint is
not part of this repository; per the spec it answers a POST with success
when the id is new (appending it) and with HTTP 422 carrying the message
`Device already in list` when the id is already present. -/
def rentedListPost (st : List String) (deviceId : String) : PostRentedResp × List String :=
  if st.contains deviceId then (.httpError alreadyInListMsg, st)
  else (.ok true, st ++ [deviceId])

/-! ## `util.js/getObContractModel` -/

/-- A caught JavaScript error: `statusCode` is `none` for thrown strings
and transport errors without a status, `errorError` models the
`err.error.error` field of a parsed 5xx body, and `str` is `err.toString()`. -/
structure JsError where
  statusCode : Option Nat
  errorError : Option String
  str : String
deriving Repr, DecidableEq

/-- The four ways a JS async function can settle for its caller: a proper
value, the literal `false`, `undefined` (falling off the end of the
function), or a propagated exception. -/
inductive JsOutcome (α : Type) where
  | value (v : α)
  | boolFalse
  | jsUndefined
  | thrown (e : JsError)
deriving Repr, DecidableEq

/-- Result of the `GET /api/obcontract/:id` round-trip: a 2xx body whose
`obContract` field may be missing, or a rejection. -/
inductive ContractGetResp where
  | success (obContract : Option ObContract)
  | failure (err : JsError)
deriving Repr, DecidableEq

/-- The string thrown when the body lacks `obContract`:
`No obContract Model with ID of ${contractId}`. -/
def missingContractMsg (contractId : String) : String :=
  "No obContract Model with ID of " ++ contractId

/-- The (misspelled) literal the catch block greps for: `No obContrct Model`. -/
def misspelledContractLit : String := "No obContrct Model"

/-- JS `err.statusCode >= 500` (false when `statusCode` is `undefined`). -/
def statusAtLeast (err : JsError) (n : Nat) : Bool :=
  match err.statusCode with
  | some code => n ≤ code
  | none => false

/-- The catch block of `getObContractModel`: any 5xx returns `false`
(logging differs on `err.error.error === "not found"` but both branches
return `false`); otherwise the error is re-thrown only when its string
contains the misspelled literal, and the function falls through to
`undefined` in every remaining case. -/
def contractCatch (err : JsError) : JsOutcome ObContract :=
  if statusAtLeast err 500 then .boolFalse
  else if containsSub err.str.toList misspelledContractLit.toList then .thrown err
  else .jsUndefined

/-- `getObContractModel config contractId`: returns the `obContract` of a
2xx body when present; a 2xx body without it throws
`missingContractMsg` (a bare string, so `statusCode` is `undefined`)
into the same catch block that handles transport failures. -/
def getObContractModel (contractId : String) (resp : ContractGetResp) : JsOutcome ObContract :=
  match resp with
  | .success (some c) => .value c
  | .success none =>
    contractCatch { statusCode := none, errorError := none, str := missingContractMsg contractId }
  | .failure err => contractCatch err

/-! ## `util.js/removeOBListing` -/

/-- The observable calls `removeOBListing` makes, in order. -/
inductive RemoveStep where
  | fetchContract (contractId : String)
  | removeListing (slug : Option String)
  | deleteContract (contractId : String)
  | putDevice (sent : Device)
deriving Repr, DecidableEq

/-- Environment for one `removeOBListing` run: the outcome of the contract
fetch, of the OpenBazaar listing removal (`none` = succeeded), of the
`DELETE /api/obcontract` call, and of the device PUT. -/
structure RemoveEnv where
  contractFetch : JsOutcome ObContract
  removeListingErr : Option JsError
  deleteContractResp : Except JsError Bool
  putDeviceResp : Except JsError RespDevice
deriving Repr

/-- `removeOBListing config deviceData`: validates `deviceData.obContract`,
fetches the contract, deletes the OB listing by the fetched
`listingSlug`, deletes the `obContract` record, then PUTs the device with
`obContract: ""`.  The catch block always returns `false` (its
`statusCode >= 404` branch merely logs differently), so the result is
`true` on full success and `false` on any error.  A `false` contract
fetch makes the slug `undefined`; an `undefined` fetch raises a
`TypeError` on the `.listingSlug` access, caught as any other error.
This definition is the tail of `removeOBListing` from the
`openbazaar.removeListing` call on; `removeOBListing` below is the whole
function. -/
def removeAfterFetch (deviceData : Device) (cid : String) (slug : Option String)
    (env : RemoveEnv) (t0 : List RemoveStep) : List RemoveStep × Bool :=
  let t1 := t0 ++ [RemoveStep.removeListing slug]
  match env.removeListingErr with
  | some _ => (t1, false)
  | none =>
    let t2 := t1 ++ [RemoveStep.deleteContract cid]
    match env.deleteContractResp with
    | .error _ => (t2, false)
    | .ok success =>
      if !success then (t2, false)
      else
        let sent : Device := { deviceData with obContract := some "" }
        let t3 := t2 ++ [RemoveStep.putDevice sent]
        match env.putDeviceResp with
        | .error _ => (t3, false)
        | .ok dev => if dev.obContract = some "" then (t3, true) else (t3, false)

def removeOBListing (deviceData : Device) (env : RemoveEnv) : List RemoveStep × Bool :=
  match deviceData.obContract with
  | none => ([], false)
  | some cid =>
    let t0 := [RemoveStep.fetchContract cid]
    match env.contractFetch with
    | .thrown _ => (t0, false)
    | .jsUndefined => (t0, false)
    | .boolFalse => removeAfterFetch deviceData cid none env t0
    | .value c => removeAfterFetch deviceData cid (some c.listingSlug) env t0

/-! ## `listing-manager.js/checkListedDevices`, per-device step -/

/-- What the health loop does with one resolved listed device. -/
inductive ListedAction where
  | staleRemoval
  | expirationRemoval
  | contractRemoval
  | noAction
deriving Repr, DecidableEq

/-- The body of the `checkListedDevices` loop once `publicData` resolved:
staleness (`delay > MAX_DELAY`) is tested first and returns from the tick;
then expiration plus buffer (`expiration + BUFFER < now`), which also
returns; then, if the contract fetch yielded a truthy model, the
contract-level `experation`. -/
def listedDeviceAction (now : Int) (pub : Device)
    (contractFetch : JsOutcome ObContract) : ListedAction :=
  let delay := now - pub.checkinTimeStamp
  if delay > MAX_DELAY then .staleRemoval
  else if pub.expiration + BUFFER < now then .expirationRemoval
  else
    match contractFetch with
    | .value c => if now > c.experation then .contractRemoval else .noAction
    | _ => .noAction

/-- The external calls a `ListedAction` performs. -/
inductive HealthCall where
  | updateExpirationCall (selector : Int)
  | removeOBListingCall
deriving Repr, DecidableEq

/-- The calls each action makes: staleness force-expires (selector 0) and
removes the listing; the two expiration triggers only remove the listing. -/
def actionCalls : ListedAction → List HealthCall
  | .staleRemoval => [.updateExpirationCall 0, .removeOBListingCall]
  | .expirationRemoval => [.removeOBListingCall]
  | .contractRemoval => [.removeOBListingCall]
  | .noAction => []

/-- Whether the branch `return true`s out of the whole tick (the staleness
and device-expiration branches do; the contract branch falls through to
the next listing). -/
def actionStopsTick : ListedAction → Bool
  | .staleRemoval => true
  | .expirationRemoval => true
  | _ => false

/-! ## `util.js/addPaymentObject` and the fulfillment cycle -/

/-- The payment object `addPaymentObject` builds: `payTime` is read from
`config.expiration`, `payQty` is the order value minus the 10% fee, and
`refundAddr` comes from the order's buyer data. -/
def mkPaymentObj (c : Config) (orderValue : Nat) (refundAddr : String) : PaymentObj :=
  { payTime := c.expiration
    payQty := net orderValue
    refundAddr := refundAddr }

/-- The ordered observable steps of one fulfillment cycle. -/
inductive CycleStep where
  | fulfillOrderStep (orderId : String)
  | markReadStep (notificationId : String)
  | updateExpirationStep (deviceId : String) (selector : Int)
  | addRentedStep (deviceId : String)
  | removeListingStep (deviceId : String)
  | addPaymentStep (payment : PaymentObj)
deriving Repr, DecidableEq

/-- Environment for one successful cycle: the wall clock at the
`updateExpiration` call, the device record the rental API returns, the
resolved private record, and the order's payment amount and refund
address. -/
structure FulfillEnv where
  now : Int
  device : Device
  priv : DevicePrivate
  orderValue : Nat
  refundAddr : String
deriving Repr, DecidableEq

/-- `listing-manager.js/fulfillNewOrders`, success path, driven by one
notification: exits on a non-`order` notification; sets
`config.isRenewal` from the slug (step 2), stores the private record and
notification in the config, fulfills the order, marks the notification
read, calls `updateExpiration` with the literal selector `30`, adds the
device to the rented list, removes the listing, appends the payment
object, and resets the config.  Returns the step trace, the reset config,
the updated device and the appended payment; `none` when the cycle exits
early (non-order notice, or falsy `updateExpiration` result). -/
def fulfillNewOrders (c : Config) (notice : Notification) (env : FulfillEnv) :
    Option (List CycleStep × Config × RespDevice × PaymentObj) :=
  if notice.type ≠ "order" then none
  else
    let c1 : Config := { c with isRenewal := slugIsRenewal notice.slug }
    let c2 : Config :=
      { c1 with devicePrivateData := some env.priv, obNotice := some notice }
    match updateExpiration c2.isRenewal env.now env.device fulfillmentTimeSelector echoPut with
    | none => none
    | some updatedDevice =>
      let payment := mkPaymentObj c2 env.orderValue env.refundAddr
      let trace :=
        [CycleStep.fulfillOrderStep notice.orderId,
         CycleStep.markReadStep notice.notificationId,
         CycleStep.updateExpirationStep env.device._id fulfillmentTimeSelector,
         CycleStep.addRentedStep updatedDevice._id,
         CycleStep.removeListingStep updatedDevice._id,
         CycleStep.addPaymentStep payment]
      some (trace, resetConfig c2, updatedDevice, payment)

/-! ## Concrete fixtures used by witnesses and counterexamples -/

/-- A non-renewal order notification with a valid trailing device id. -/
def cNote : Notification :=
  { notificationId := "n1"
    type := "order"
    orderId := "o1"
    slug := "widget-abcdef0123456789abcdef01" }

/-- A device record at epoch time with an active contract reference. -/
def cDev : Device :=
  { _id := "abcdef0123456789abcdef01"
    privateData := "p1"
    checkinTimeStamp := 0
    expiration := 0
    obContract := some "c1" }

/-- A fulfillment environment at `now = 0` with a 2086-satoshi order. -/
def cEnv : FulfillEnv :=
  { now := 0
    device := cDev
    priv := { _id := "p1", payments := [] }
    orderValue := 2086
    refundAddr := "qz048h4hqdlje0hpc3g5d9x3w2xej5slugelttegvl" }

/-- A PUT responder whose response lacks the `expiration` field. -/
def droppedFieldPut (_ : Device) : RespDevice :=
  { _id := "x", expiration := none, obContract := none }

/-- The device record `cEnv`'s cycle writes back: expiration one day past
`now = 0`. -/
def cUpdatedDev : RespDevice :=
  { _id := "abcdef0123456789abcdef01"
    expiration := some 86400000
    obContract := some "c1" }

/-- The payment object the concrete cycle appends. -/
def cPay : PaymentObj :=
  { payTime := none
    payQty := 1878
    refundAddr := "qz048h4hqdlje0hpc3g5d9x3w2xej5slugelttegvl" }

/-- The step trace of the concrete cycle. -/
def cTrace : List CycleStep :=
  [CycleStep.fulfillOrderStep "o1",
   CycleStep.markReadStep "n1",
   CycleStep.updateExpirationStep "abcdef0123456789abcdef01" 30,
   CycleStep.addRentedStep "abcdef0123456789abcdef01",
   CycleStep.removeListingStep "abcdef0123456789abcdef01",
   CycleStep.addPaymentStep cPay]

/-! ## Claims -/

/-- C6: for every non-negative integer order price, `addPaymentObject`
computes `fee = floor(price * 10 / 100)` and `net = price - fee`, and the
payment object carries `net`, so `net + fee = price` exactly. -/
theorem c6_fee_net_partition (price : Nat) (c : Config) (addr : String) :
    fee price = price * 10 / 100 ∧
    net price = price - fee price ∧
    net price + fee price = price ∧
    (mkPaymentObj c price addr).payQty = net price := by
  refine ⟨rfl, rfl, ?_, rfl⟩
  unfold net fee FEE_PERCENTAGE
  omega

/-- C5: `addRentedDevice` is idempotent against the rented-device list:
both the first call (which appends the id) and the second call (which
observes the HTTP 422 `Device already in list` rejection) report success. -/
theorem c5_addRentedDevice_idempotent (st : List String) (deviceId : String) :
    addRentedDevice deviceId (rentedListPost st deviceId).1 = .ok true ∧
    addRentedDevice deviceId
      (rentedListPost (rentedListPost st deviceId).2 deviceId).1 = .ok true := by
  unfold rentedListPost addRentedDevice
  by_cases h : deviceId ∈ st
  · simp [h]
  · simp [h]

/-- C3: in the listed-device health loop, the three removal triggers are
tested in the order staleness, expiration-plus-buffer, contract-level
expiration; the first match determines the single action taken, so a
device both stale and past its expiration-plus-buffer is handled by the
staleness branch alone, and no action removes the listing twice. -/
theorem c3_listed_trigger_precedence (now : Int) (pub : Device)
    (cf : JsOutcome ObContract) :
    (now - pub.checkinTimeStamp > MAX_DELAY →
      listedDeviceAction now pub cf = .staleRemoval) ∧
    (¬(now - pub.checkinTimeStamp > MAX_DELAY) → pub.expiration + BUFFER < now →
      listedDeviceAction now pub cf = .expirationRemoval) ∧
    (∀ ctr, ¬(now - pub.checkinTimeStamp > MAX_DELAY) →
      ¬(pub.expiration + BUFFER < now) → cf = .value ctr → now > ctr.experation →
      listedDeviceAction now pub cf = .contractRemoval) ∧
    ((actionCalls (listedDeviceAction now pub cf)).count .removeOBListingCall ≤ 1) := by
  refine ⟨?_, ?_, ?_, ?_⟩
  · intro h; simp [listedDeviceAction, h]
  · intro h1 h2; simp [listedDeviceAction, h1, h2]
  · intro ctr h1 h2 h3 h4; simp [listedDeviceAction, h1, h2, h3, h4]
  · cases h : listedDeviceAction now pub cf <;> simp [actionCalls]

/-- C3 witness: a device checked in 11 minutes ago whose expiration plus
buffer is also past is removed by the staleness branch. -/
theorem c3_listed_trigger_precedence_witness :
    listedDeviceAction 660000 cDev .boolFalse = .staleRemoval :=
  (c3_listed_trigger_precedence 660000 cDev .boolFalse).1 (by decide)

/-- C2: for every selector of the duration-preset enum, `updateExpiration`
sets the new expiration to `now + Δ` when the session's `isRenewal` flag
is false and to `oldExpiration + Δ` when it is true, with
`Δ = targetTime selector` a deterministic function of the selector, and
returns the updated record; when the PUT response lacks the `expiration`
field it returns a falsy result. -/
theorem c2_updateExpiration_presets (now : Int) (stored : Device) (sel : Int)
    (hsel : sel = 0 ∨ sel = 10 ∨ sel = 20 ∨ sel = 30 ∨ sel = 40 ∨ sel = 50) :
    updateExpiration false now stored sel echoPut =
      some { _id := stored._id, expiration := some (now + targetTime sel),
             obContract := stored.obContract } ∧
    updateExpiration true now stored sel echoPut =
      some { _id := stored._id, expiration := some (stored.expiration + targetTime sel),
             obContract := stored.obContract } ∧
    (∀ (isRenewal : Bool) (putResp : Device → RespDevice),
      (putResp { stored with expiration := newExpirationMs isRenewal now stored.expiration (targetTime sel) }).expiration = none →
      updateExpiration isRenewal now stored sel putResp = none) := by
  refine ⟨rfl, rfl, ?_⟩
  intro isRenewal putResp hnone
  unfold updateExpiration
  simp only [newExpirationMs] at hnone ⊢
  rw [hnone]

/-- C2 witness: the 1-month selector at `now = 0` on a device expiring at
`0` yields `0 + Δ` for a new rental, `0 + Δ` added to the old expiration
for a renewal, and a falsy result against a field-dropping server. -/
theorem c2_updateExpiration_presets_witness :
    updateExpiration false 0 cDev 50 echoPut =
      some { _id := cDev._id, expiration := some (0 + targetTime 50),
             obContract := cDev.obContract } ∧
    updateExpiration true 0 cDev 50 echoPut =
      some { _id := cDev._id, expiration := some (cDev.expiration + targetTime 50),
             obContract := cDev.obContract } ∧
    updateExpiration false 0 cDev 50 droppedFieldPut = none := by
  have h := c2_updateExpiration_presets 0 cDev 50 (by decide)
  exact ⟨h.1, h.2.1, h.2.2 false droppedFieldPut rfl⟩

/-- C1 (amended): in every successful order-fulfillment cycle the
expiration update runs after the fulfill-order and mark-read steps, with
renewal semantics taken from the slug, but the preset passed is the
literal selector 30, whose table entry is one day (86400000 ms), not the
1-month entry. -/
theorem c1_fulfillment_uses_one_day_preset (c : Config) (notice : Notification)
    (env : FulfillEnv) (trace : List CycleStep) (cfg : Config) (dev : RespDevice)
    (pay : PaymentObj)
    (h : fulfillNewOrders c notice env = some (trace, cfg, dev, pay)) :
    dev.expiration = some (newExpirationMs (slugIsRenewal notice.slug) env.now
        env.device.expiration (targetTime fulfillmentTimeSelector)) ∧
    targetTime fulfillmentTimeSelector = 60000 * 60 * 24 ∧
    targetTime fulfillmentTimeSelector ≠ targetTime 50 ∧
    trace = [CycleStep.fulfillOrderStep notice.orderId,
             CycleStep.markReadStep notice.notificationId,
             CycleStep.updateExpirationStep env.device._id fulfillmentTimeSelector,
             CycleStep.addRentedStep dev._id,
             CycleStep.removeListingStep dev._id,
             CycleStep.addPaymentStep pay] := by
  unfold fulfillNewOrders at h
  by_cases ht : notice.type ≠ "order"
  · simp [ht] at h
  · simp only [ht, if_false, updateExpiration, echoPut, newExpirationMs,
      Option.some.injEq, Prod.mk.injEq] at h
    obtain ⟨h1, h2, h3, h4⟩ := h
    subst h1
    subst h3
    subst h4
    exact ⟨by simp [newExpirationMs], by decide, by decide, rfl⟩

/-- C1 witness: the concrete non-renewal cycle at `now = 0` produces the
one-day expiration and the listed step order. -/
theorem c1_fulfillment_uses_one_day_preset_witness :
    cUpdatedDev.expiration = some (newExpirationMs (slugIsRenewal cNote.slug)
        cEnv.now cEnv.device.expiration (targetTime fulfillmentTimeSelector)) ∧
    targetTime fulfillmentTimeSelector = 60000 * 60 * 24 ∧
    targetTime fulfillmentTimeSelector ≠ targetTime 50 ∧
    cTrace = [CycleStep.fulfillOrderStep cNote.orderId,
              CycleStep.markReadStep cNote.notificationId,
              CycleStep.updateExpirationStep cEnv.device._id fulfillmentTimeSelector,
              CycleStep.addRentedStep cUpdatedDev._id,
              CycleStep.removeListingStep cUpdatedDev._id,
              CycleStep.addPaymentStep cPay] :=
  c1_fulfillment_uses_one_day_preset initialConfig cNote cEnv cTrace initialConfig
    cUpdatedDev cPay (by decide)

/-- C1 counterexample: on a concrete successful cycle the new expiration
is 86400000 ms past `now` (the one-day preset), whereas the fixed 1-month
preset of the `updateExpiration` table (selector 50) would give
2592000000 ms, so the cycle does not use the 1-month preset. -/
theorem c1_not_one_month_counterexample :
    (fulfillNewOrders initialConfig cNote cEnv).map
        (fun r => r.2.2.1.expiration) = some (some 86400000) ∧
    newExpirationMs (slugIsRenewal cNote.slug) cEnv.now cEnv.device.expiration
        (targetTime 50) = 2592000000 ∧
    (86400000 : Int) ≠ 2592000000 := by
  refine ⟨by decide, by decide, by decide⟩

/-! ## Lemmas about `splitDash` -/

theorem splitDash_ne_nil (l : List Char) : splitDash l ≠ [] := by
  cases l with
  | nil => simp [splitDash]
  | cons c rest =>
    simp only [splitDash]
    cases h : splitDash rest with
    | nil => simp
    | cons hd tl => by_cases hc : c = '-' <;> simp [hc]

theorem splitDash_no_dash (l : List Char) (h : ∀ c ∈ l, c ≠ '-') :
    splitDash l = [l] := by
  induction l with
  | nil => rfl
  | cons c rest ih =>
    have hc : c ≠ '-' := h c (by simp)
    have hrest : ∀ x ∈ rest, x ≠ '-' := fun x hx => h x (by simp [hx])
    simp [splitDash, ih hrest, hc]

theorem splitDash_append_dash (p rest : List Char) :
    (splitDash (p ++ '-' :: rest)).getLast? = (splitDash rest).getLast? ∧
    2 ≤ (splitDash (p ++ '-' :: rest)).length := by
  induction p with
  | nil =>
    simp only [List.nil_append, splitDash]
    cases h : splitDash rest with
    | nil => exact absurd h (splitDash_ne_nil rest)
    | cons hd tl =>
      refine ⟨?_, ?_⟩ <;> simp [List.getLast?_cons_cons]
  | cons c p ih =>
    obtain ⟨ih1, ih2⟩ := ih
    simp only [List.cons_append, splitDash]
    cases h : splitDash (p ++ '-' :: rest) with
    | nil => exact absurd h (splitDash_ne_nil _)
    | cons hd tl =>
      rw [h] at ih1 ih2
      cases tl with
      | nil => simp at ih2
      | cons x tl2 =>
        by_cases hc : c = '-'
        · simp only [hc, if_true]
          exact ⟨by rw [List.getLast?_cons_cons]; exact ih1, by simp⟩
        · simp only [hc, if_false]
          rw [List.getLast?_cons_cons] at ih1
          exact ⟨by rw [List.getLast?_cons_cons]; exact ih1, by simp⟩

theorem splitDash_getLastD (p t : List Char) (ht : ∀ c ∈ t, c ≠ '-') :
    (splitDash (p ++ '-' :: t)).getLastD [] = t := by
  have h := (splitDash_append_dash p t).1
  rw [splitDash_no_dash t ht] at h
  rw [List.getLastD_eq_getLast?, h]
  rfl

/-- C4 counterexample: the regex carries the `i` flag, so the all-uppercase
hex string `ABCDEF0123456789ABCDEF01` passes `validateGuid` although it is
not a 24-character lowercase-hex string. -/
theorem c4_uppercase_guid_counterexample :
    validateGuid "ABCDEF0123456789ABCDEF01" = true ∧
    isLowercaseHexPattern "ABCDEF0123456789ABCDEF01" = false := by
  exact ⟨by decide, by decide⟩

/-- C4 (amended): `validateGuid` returns true iff its input is a
24-character case-insensitive hex string (so uppercase hex digits are
also accepted; all other strings are rejected), and for every slug whose
trailing `'-'`-delimited token is 24-character lowercase hex, extraction
returns exactly that token. -/
theorem c4_guid_validation_and_extraction :
    (∀ s : String, validateGuid s = true ↔
      (s.toList.length = 24 ∧ ∀ c ∈ s.toList, isGuidChar c = true)) ∧
    (∀ p t : String, isLowercaseHexPattern t = true →
      extractDeviceId (p ++ "-" ++ t) = t) := by
  constructor
  · intro s
    simp [validateGuid, List.all_eq_true]
  · intro p t hhex
    have hcl : t.toList.length = 24 ∧
        ∀ c ∈ t.toList, (('a' ≤ c && c ≤ 'f') || c.isDigit) = true := by
      simpa [isLowercaseHexPattern, List.all_eq_true] using hhex
    have hnd : ∀ c ∈ t.toList, c ≠ '-' := by
      intro c hc heq
      have := hcl.2 c hc
      subst heq
      simp at this
    have hdata : (p ++ "-" ++ t).toList = p.toList ++ '-' :: t.toList := by
      show (p ++ "-" ++ t).data = p.data ++ '-' :: t.data
      rw [String.data_append, String.data_append, List.append_assoc]
      rfl
    unfold extractDeviceId
    rw [hdata, splitDash_getLastD p.toList t.toList hnd]
    show String.mk t.data = t
    rfl

/-- C4 witness: the slug of the spec's scenario yields exactly its
trailing 24-character lowercase-hex token. -/
theorem c4_guid_validation_and_extraction_witness :
    extractDeviceId ("widget-renewal" ++ "-" ++ "abcdef0123456789abcdef01") =
      "abcdef0123456789abcdef01" :=
  c4_guid_validation_and_extraction.2 "widget-renewal" "abcdef0123456789abcdef01"
    (by decide)

/-- A 5xx rejection whose parsed body reports `not found`. -/
def err500NotFound : JsError :=
  { statusCode := some 500
    errorError := some "not found"
    str := "500 - not found" }

/-- A plain 404 rejection. -/
def err404 : JsError :=
  { statusCode := some 404
    errorError := none
    str := "404 - Not Found" }

/-- A concrete contract record for the device `cDev`. -/
def cContract : ObContract :=
  { _id := "c1"
    listingSlug := "widget-abcdef0123456789abcdef01"
    experation := 100 }

/-- C7 counterexample: on a 404 rejection the contract fetch neither fails
nor returns the record nor returns false — it returns `undefined`, so the
claim's "otherwise it fails" is wrong. -/
theorem c7_nonfailing_counterexample :
    getObContractModel "c1" (.failure err404) = .jsUndefined ∧
    getObContractModel "c1" (.failure err404) ≠ .boolFalse ∧
    getObContractModel "c1" (.failure err404) ≠ .thrown err404 := by
  exact ⟨by decide, by decide, by decide⟩

/-- C7 (amended): the contract fetch returns false on any 5xx rejection
(in particular one whose payload reports "not found") without propagating
an exception, returns the record when the server reports it present, and
on every other error — any non-5xx rejection whose text lacks the
misspelled sentinel — it returns `undefined` rather than failing. -/
theorem c7_contract_fetch_outcomes (contractId : String) (c : ObContract)
    (err : JsError) :
    (getObContractModel contractId (.success (some c)) = .value c) ∧
    (statusAtLeast err 500 = true →
      getObContractModel contractId (.failure err) = .boolFalse) ∧
    (statusAtLeast err 500 = false →
      containsSub err.str.toList misspelledContractLit.toList = false →
      getObContractModel contractId (.failure err) = .jsUndefined) := by
  refine ⟨rfl, ?_, ?_⟩
  · intro h
    simp [getObContractModel, contractCatch, h]
  · intro h1 h2
    simp [getObContractModel, contractCatch, h1]
    exact h2

/-- C7 witness: the 5xx "not found" rejection yields false and the 404
rejection yields `undefined`. -/
theorem c7_contract_fetch_outcomes_witness :
    getObContractModel "c1" (.failure err500NotFound) = .boolFalse ∧
    getObContractModel "c1" (.failure err404) = .jsUndefined :=
  ⟨(c7_contract_fetch_outcomes "c1" cContract err500NotFound).2.1 (by decide),
   (c7_contract_fetch_outcomes "c1" cContract err404).2.2 (by decide) (by decide)⟩

/-- C8: `removeOBListing` performs, in order, the contract fetch, the
marketplace listing removal by the fetched slug, the contract-record
deletion, and the device PUT with the contract reference cleared; an
error thrown by the contract fetch (the 404-class case included) makes it
return false without propagating, and every failure after the
listing-removal step is attempted also returns false. -/
theorem c8_removeOBListing_sequence (dev : Device) (cid : String)
    (ctr : ObContract) (env : RemoveEnv) (rdev : RespDevice) (e : JsError)
    (hc : dev.obContract = some cid) :
    (env.contractFetch = .value ctr → env.removeListingErr = none →
      env.deleteContractResp = .ok true → env.putDeviceResp = .ok rdev →
      rdev.obContract = some "" →
      removeOBListing dev env =
        ([RemoveStep.fetchContract cid, RemoveStep.removeListing (some ctr.listingSlug),
          RemoveStep.deleteContract cid,
          RemoveStep.putDevice { dev with obContract := some "" }], true)) ∧
    (env.contractFetch = .thrown e →
      removeOBListing dev env = ([RemoveStep.fetchContract cid], false)) ∧
    (env.contractFetch = .value ctr → env.removeListingErr = some e →
      removeOBListing dev env =
        ([RemoveStep.fetchContract cid,
          RemoveStep.removeListing (some ctr.listingSlug)], false)) ∧
    (env.contractFetch = .value ctr → env.removeListingErr = none →
      env.deleteContractResp = .error e →
      removeOBListing dev env =
        ([RemoveStep.fetchContract cid, RemoveStep.removeListing (some ctr.listingSlug),
          RemoveStep.deleteContract cid], false)) ∧
    (env.contractFetch = .value ctr → env.removeListingErr = none →
      env.deleteContractResp = .ok true → env.putDeviceResp = .error e →
      removeOBListing dev env =
        ([RemoveStep.fetchContract cid, RemoveStep.removeListing (some ctr.listingSlug),
          RemoveStep.deleteContract cid,
          RemoveStep.putDevice { dev with obContract := some "" }], false)) := by
  refine ⟨?_, ?_, ?_, ?_, ?_⟩
  · intro h1 h2 h3 h4 h5
    simp [removeOBListing, hc, h1, removeAfterFetch, h2, h3, h4, h5]
  · intro h1
    simp [removeOBListing, hc, h1]
  · intro h1 h2
    simp [removeOBListing, hc, h1, removeAfterFetch, h2]
  · intro h1 h2 h3
    simp [removeOBListing, hc, h1, removeAfterFetch, h2, h3]
  · intro h1 h2 h3 h4
    simp [removeOBListing, hc, h1, removeAfterFetch, h2, h3, h4]

/-- The environment of a fully successful `removeOBListing` run. -/
def cRemoveEnvOk : RemoveEnv :=
  { contractFetch := .value cContract
    removeListingErr := none
    deleteContractResp := .ok true
    putDeviceResp := .ok { _id := cDev._id, expiration := some 0, obContract := some "" } }

/-- C8 witness: the concrete successful run produces the four calls in
order and returns true. -/
theorem c8_removeOBListing_sequence_witness :
    removeOBListing cDev cRemoveEnvOk =
      ([RemoveStep.fetchContract "c1", RemoveStep.removeListing (some cContract.listingSlug),
        RemoveStep.deleteContract "c1",
        RemoveStep.putDevice { cDev with obContract := some "" }], true) :=
  (c8_removeOBListing_sequence cDev "c1" cContract cRemoveEnvOk
      { _id := cDev._id, expiration := some 0, obContract := some "" }
      err404 rfl).1 rfl rfl rfl rfl rfl

/-- C10: the payment object's `payTime` is read from the session config's
`expiration` field, which the initial config, `resetConfig` and every
step of the fulfillment cycle leave unwritten; hence in every fulfillment
cycle the appended payment's `payTime` is `undefined`. -/
theorem c10_payTime_never_written (c : Config) (notice : Notification)
    (env : FulfillEnv) (trace : List CycleStep) (cfg : Config) (dev : RespDevice)
    (pay : PaymentObj)
    (h : fulfillNewOrders c notice env = some (trace, cfg, dev, pay)) :
    pay.payTime = c.expiration ∧
    (c.expiration = none → pay.payTime = none) ∧
    initialConfig.expiration = none ∧
    (∀ c' : Config, (resetConfig c').expiration = none) ∧
    cfg.expiration = none := by
  unfold fulfillNewOrders at h
  by_cases ht : notice.type ≠ "order"
  · simp [ht] at h
  · simp only [ht, if_false, updateExpiration, echoPut, newExpirationMs,
      Option.some.injEq, Prod.mk.injEq] at h
    obtain ⟨h1, h2, h3, h4⟩ := h
    subst h2
    subst h4
    exact ⟨rfl, fun hx => hx, rfl, fun c' => rfl, rfl⟩

/-- C10 witness: the concrete cycle's payment has no `payTime`, and reset
configs carry no `expiration` field. -/
theorem c10_payTime_never_written_witness :
    cPay.payTime = none ∧ (resetConfig initialConfig).expiration = none := by
  have h := c10_payTime_never_written initialConfig cNote cEnv cTrace initialConfig
    cUpdatedDev cPay (by decide)
  exact ⟨h.2.1 rfl, h.2.2.2.1 initialConfig⟩

/-! ## Substring lemmas for the misspelled-literal comparison -/

theorem containsSub_iff (s pat : List Char) :
    containsSub s pat = true ↔ ∃ u v, s = u ++ pat ++ v := by
  unfold containsSub
  rw [List.any_eq_true]
  constructor
  · rintro ⟨i, _, hpref⟩
    rw [ List.isPrefixOf_iff_prefix] at hpref
    obtain ⟨w, hw⟩ := hpref
    refine ⟨s.take i, w, ?_⟩
    rw [List.append_assoc, hw, List.take_append_drop]
  · rintro ⟨u, v, rfl⟩
    refine ⟨u.length, ?_, ?_⟩
    · simp [List.mem_range, List.length_append]
      omega
    · rw [List.append_assoc, List.drop_left, List.isPrefixOf_iff_prefix ]
      exact ⟨v, rfl⟩

/-- The constant prefix of the thrown `No obContract Model with ID of `
message. -/
def msgPrefixChars : List Char := "No obContract Model with ID of ".toList

theorem misspelled_not_in_msg (id : List Char)
    (hhex : ∀ c ∈ id, isGuidChar c = true) :
    containsSub (msgPrefixChars ++ id) misspelledContractLit.toList = false := by
  by_contra hcon
  rw [Bool.not_eq_false, containsSub_iff] at hcon
  obtain ⟨u, v, heq⟩ := hcon
  have hpat18 : misspelledContractLit.toList.length = 18 := by decide
  have hpre31 : msgPrefixChars.length = 31 := by decide
  by_cases hk : u.length + misspelledContractLit.toList.length ≤ msgPrefixChars.length
  · have h2 := congrArg (List.take msgPrefixChars.length) heq
    rw [List.take_left] at h2
    rw [List.take_append_eq_append_take] at h2
    rw [List.take_of_length_le (by rw [List.length_append]; omega)] at h2
    have hc2 : containsSub msgPrefixChars misspelledContractLit.toList = true := by
      rw [containsSub_iff]
      exact ⟨u, _, h2⟩
    have hc3 : containsSub msgPrefixChars misspelledContractLit.toList = false := by
      decide
    rw [hc2] at hc3
    exact Bool.noConfusion hc3
  · have hk14 : 14 ≤ u.length := by omega
    have hl17 : misspelledContractLit.toList.get? 17 = some 'l' := by decide
    have hidx : (msgPrefixChars ++ id).get? (u.length + 17) = some 'l' := by
      rw [heq, List.append_assoc,
        List.get?_append_right (by omega : u.length ≤ u.length + 17)]
      have h17 : u.length + 17 - u.length = 17 := by omega
      rw [h17, List.get?_append (by omega : 17 < misspelledContractLit.toList.length)]
      exact hl17
    have hple : msgPrefixChars.length ≤ u.length + 17 := by omega
    rw [List.get?_append_right hple] at hidx
    have hmem : 'l' ∈ id := List.get?_mem hidx
    have hbad := hhex 'l' hmem
    simp [isGuidChar] at hbad

/-- C9: the contract fetch has a third outcome: for any non-5xx error
whose text lacks the misspelled sentinel — and in particular for a 2xx
response without the `obContract` field, whose internally thrown message
`No obContract Model with ID of ...` never matches the misspelled
comparison literal `No obContrct Model` for a hex contract id — the
function returns `undefined`: neither the record, nor false, nor a
propagated exception. -/
theorem c9_contract_fetch_third_outcome (contractId : String)
    (hhex : ∀ c ∈ contractId.toList, isGuidChar c = true)
    (err : JsError) (hcode : statusAtLeast err 500 = false)
    (hmsg : containsSub err.str.toList misspelledContractLit.toList = false) :
    getObContractModel contractId (.success none) = .jsUndefined ∧
    getObContractModel contractId (.failure err) = .jsUndefined := by
  constructor
  · show contractCatch _ = _
    unfold contractCatch
    have hm : (missingContractMsg contractId).toList =
        msgPrefixChars ++ contractId.toList := by
      show (missingContractMsg contractId).data = _
      unfold missingContractMsg msgPrefixChars
      rw [String.data_append]
      rfl
    rw [hm]
    have hfalse : containsSub (msgPrefixChars ++ contractId.data)
        misspelledContractLit.data = false :=
      misspelled_not_in_msg contractId.toList hhex
    simp [statusAtLeast, hfalse]
  · show contractCatch err = _
    simp [contractCatch, hcode]
    exact hmsg

/-- C9 witness: the device id of the fixtures resolves both non-5xx paths
to `undefined`. -/
theorem c9_contract_fetch_third_outcome_witness :
    getObContractModel "abcdef0123456789abcdef01" (.success none) = .jsUndefined ∧
    getObContractModel "abcdef0123456789abcdef01" (.failure err404) = .jsUndefined :=
  c9_contract_fetch_third_outcome "abcdef0123456789abcdef01" (by decide) err404
    (by decide) (by decide)

end ListingManager
